import Mathlib

/-!
Verification development for the Telegram motivation bot (`main.py`).

The program is a single-file aiogram bot.  Its persistent state is a SQLite
database with three tables (`users`, `motivations`, `motivation_likes`), and
its handlers are small imperative functions mixing database mutation with
outbound Transport calls (messages, callback answers, message edits).

The shallow embedding below models:
 * the database as a Lean structure `DB` (the peripheral columns of `users`
   — names and the `joined_date` / `last_active` timestamps, which every
   handler refreshes identically via `update_last_active` — are omitted,
   as are `created_at` on `motivations`);
 * each handler as a pure function from its inputs (including the outcome
   of every fallible Transport call, passed in as a boolean or `Except`
   oracle, as a test double would) to the new database plus the ordered
   list of outbound user-facing messages it produced;
 * the aiogram FSM session as a `Session` value (mode plus the
   `editing_motivation_id` payload stored by `state.update_data`).

Nondeterministic inputs of the real system (which Transport calls fail,
which approved motivation the daily `ORDER BY RANDOM()` query picks) are
parameters of the corresponding functions.
-/

namespace TezkorQuiz

/-- One row of the `motivations` table: text body, submitter id, status
(`"pending"` / `"approved"` / `"rejected"`), like and share counters.
Counters are SQLite INTEGER columns, modelled as `Int` (the code updates
them with unguarded `likes - 1` / `likes + 1` arithmetic). -/
structure Motivation where
  text : String
  submittedBy : Nat
  status : String
  likes : Int
  shares : Int
  deriving DecidableEq, Repr

/-- One row of the `users` table, keeping the flag columns the workflow
logic reads: the two membership flags written by `check_subscription`, the
daily opt-in flag and the `is_active` flag. -/
structure UserRow where
  userId : Nat
  isSubscribedChannel : Bool
  isSubscribedGroup : Bool
  receiveDailyMotivation : Bool
  isActive : Bool
  deriving DecidableEq, Repr

/-- The SQLite datastore.  `items` maps a motivation id to its row (`none`
when no row with that id exists); `nextId` models the AUTOINCREMENT
sequence of `motivations.id`; `marks` is the `motivation_likes` table, a
set of `(user_id, motivation_id)` pairs — its composite primary key makes
it a set; `users` is the `users` table as an ordered list of rows (SQL
queries return them in table order). -/
@[ext]
structure DB where
  items : Nat → Option Motivation
  nextId : Nat
  marks : Finset (Nat × Nat)
  users : List UserRow

/-- Load-time configuration: `ADMIN_IDS` (the privileged allow-list) and
the optional `MOTIVATION_GROUP_ID` moderation destination. -/
structure Config where
  admins : List Nat
  motivationGroup : Option Nat
  deriving DecidableEq, Repr

/-- The aiogram FSM states of `class Form`, plus the implicit idle state
(no state set). -/
inductive Mode where
  | idle
  | awaitingAiQuery
  | awaitingBroadcast
  | awaitingSubmission
  | awaitingEdit
  deriving DecidableEq, Repr

/-- Per-user session: current FSM mode plus the `editing_motivation_id`
payload stored by `state.update_data` in `edit_motivation_command`. -/
structure Session where
  mode : Mode
  payload : Option Nat
  deriving DecidableEq, Repr

/-- `state.clear()`: mode reset and payload dropped. -/
def clearedSession : Session := { mode := .idle, payload := none }

/-- Outbound user-facing messages / callback answers, tagged by which
`bot.send_message` / `callback_query.answer` / `bot.edit_message_text`
call in the source produced them.  `delivered` records whether the
Transport send succeeded (the code wraps these sends in try/except). -/
inductive Reply where
  | adminOnlyAlert
  | adminOnlyNotice
  | stopConfirm
  | broadcastPrompt
  | broadcastCancelled
  | broadcastStarting (recipients : Nat)
  | broadcastReport (sent failed : Nat)
  | submissionCancelled
  | retryError
  | submissionThanks
  | notifGroup (groupId itemId : Nat) (delivered : Bool)
  | notifAdmin (adminId itemId : Nat) (delivered : Bool)
  | approvedUserNotice (userId : Nat) (delivered : Bool)
  | publishApproved (groupId itemId : Nat) (delivered : Bool)
  | reviewerControlsEdit (itemId : Nat)
  | rejectedUserNotice (userId : Nat) (delivered : Bool)
  | reviewerControlsRemoved (itemId : Nat)
  | editPrompt (itemId : Nat)
  | deletedNotice (itemId : Nat)
  deriving DecidableEq, Repr

/-- The universal back-button text checked by every FSM handler. -/
def backText : String := "🔙 Ortga qaytish"

/-- `status not in ['left', 'kicked', 'banned']` from `check_subscription`
(the chat-member status strings of the platform). -/
def statusOk (s : String) : Bool :=
  !(s == "left" || s == "kicked" || s == "banned")

/-- The UPDATE of the two membership flag columns performed by
`check_subscription` on the user's row. -/
def updFlags (uid : Nat) (c g : Bool) (users : List UserRow) : List UserRow :=
  users.map (fun r =>
    if r.userId = uid then { r with isSubscribedChannel := c, isSubscribedGroup := g } else r)

/-- `check_subscription(user_id)`: queries Transport for the member status
in the channel and the group.  `transport` is the combined outcome of the
two `bot.get_chat_member` calls: `.ok (cs, gs)` with the two status
strings, or `.error e` when either call raised.  On success the two
booleans are cached into the user's row and the conjunction is returned;
on any Transport error the `except` branch returns `False` (fail closed,
no database write) — the function always returns a boolean, never an
error. -/
def check_subscription (db : DB) (uid : Nat)
    (transport : Except String (String × String)) : Bool × DB :=
  match transport with
  | .ok (cs, gs) =>
      (statusOk cs && statusOk gs,
       { db with users := updFlags uid (statusOk cs) (statusOk gs) db.users })
  | .error _ => (false, db)

/-- The access gate as used by the gated handlers (`cmd_ai`,
`add_motivation`, ...): a privileged id (`user_id in ADMIN_IDS`) is
authorized without any membership check or database write; everyone else
goes through `check_subscription`. -/
def isAuthorized (cfg : Config) (db : DB) (uid : Nat)
    (transport : Except String (String × String)) : Bool × DB :=
  if uid ∈ cfg.admins then (true, db) else check_subscription db uid transport

/-- The `UPDATE motivations SET ... WHERE id = mid` pattern: applies `f`
to the row with id `mid` when it exists, leaves all other rows (and a
missing row) untouched. -/
def updItem (mid : Nat) (f : Motivation → Motivation)
    (items : Nat → Option Motivation) : Nat → Option Motivation :=
  fun j => if j = mid then (items j).map f else items j

/-- `like_motivation` (the toggle-like callback), database effect: SELECT
the `(user_id, motivation_id)` mark; if present, DELETE it and decrement
the item's like counter; otherwise INSERT it and increment the counter.
Both UPDATEs run unconditionally (`WHERE id = mid` simply matches no row
when the motivation does not exist), so the function is total — the
handler never raises.  The subsequent SELECT and the markup refresh it
feeds are Transport-only and change no database state. -/
def like_motivation (uid mid : Nat) (db : DB) : DB :=
  if (uid, mid) ∈ db.marks then
    { db with
        marks := db.marks.erase (uid, mid),
        items := updItem mid (fun m => { m with likes := m.likes - 1 }) db.items }
  else
    { db with
        marks := insert (uid, mid) db.marks,
        items := updItem mid (fun m => { m with likes := m.likes + 1 }) db.items }

/-- A sequence of toggle-like calls, processed one at a time in order. -/
def toggleSeq : List (Nat × Nat) → DB → DB
  | [], db => db
  | (u, m) :: rest, db => toggleSeq rest (like_motivation u m db)

/-- Number of `motivation_likes` rows referencing motivation `mid`. -/
def likeCount (db : DB) (mid : Nat) : Nat :=
  (db.marks.filter (fun p => p.2 = mid)).card

/-- The like-counter invariant: every existing motivation's `likes` column
equals the number of `motivation_likes` rows referencing it. -/
def likeInv (db : DB) : Prop :=
  ∀ mid m, db.items mid = some m → m.likes = (likeCount db mid : Int)

/-- `delete_motivation`: privileged-only (non-admins get the alert
callback answer); for an admin it runs `DELETE FROM motivations WHERE
id = mid` — and nothing else: no statement touches `motivation_likes`,
and the connection never enables SQLite foreign-key enforcement — then
edits the reviewer's message to the deleted notice. -/
def delete_motivation (cfg : Config) (reviewer mid : Nat) (db : DB) : DB × List Reply :=
  if reviewer ∈ cfg.admins then
    ({ db with items := fun j => if j = mid then none else db.items j },
     [.deletedNotice mid])
  else (db, [.adminOnlyAlert])

/-- `approve_motivation`: privileged-only; sets status to `approved`
(UPDATE matches no row for a missing id), re-reads the row, and when it
exists notifies the submitter (best effort), republishes to the
moderation group when configured (best effort), and swaps the reviewer's
controls to edit/delete. -/
def approve_motivation (cfg : Config) (submitterOk pubOk : Bool)
    (reviewer mid : Nat) (db : DB) : DB × List Reply :=
  if reviewer ∈ cfg.admins then
    let db2 : DB :=
      { db with items := updItem mid (fun m => { m with status := "approved" }) db.items }
    match db2.items mid with
    | none => (db2, [])
    | some m =>
        (db2,
         Reply.approvedUserNotice m.submittedBy submitterOk ::
           (match cfg.motivationGroup with
            | some g => [Reply.publishApproved g mid pubOk]
            | none => []) ++ [Reply.reviewerControlsEdit mid])
  else (db, [.adminOnlyAlert])

/-- `reject_motivation`: privileged-only; sets status to `rejected`,
notifies the submitter (best effort), removes the reviewer controls. -/
def reject_motivation (cfg : Config) (submitterOk : Bool)
    (reviewer mid : Nat) (db : DB) : DB × List Reply :=
  if reviewer ∈ cfg.admins then
    let db2 : DB :=
      { db with items := updItem mid (fun m => { m with status := "rejected" }) db.items }
    match db2.items mid with
    | none => (db2, [])
    | some m =>
        (db2, [Reply.rejectedUserNotice m.submittedBy submitterOk,
               Reply.reviewerControlsRemoved mid])
  else (db, [.adminOnlyAlert])

/-- `edit_motivation_command` (callback entry into the edit flow):
privileged-only; stores the motivation id in the session payload, enters
the awaiting-edit-text state and prompts for the new text. -/
def edit_motivation_command (cfg : Config) (reviewer mid : Nat)
    (sess : Session) (db : DB) : Session × DB × List Reply :=
  if reviewer ∈ cfg.admins then
    ({ mode := .awaitingEdit, payload := some mid }, db, [.editPrompt mid])
  else (sess, db, [.adminOnlyAlert])

/-- `cmd_stop` (`/stop` in a private chat).  It is registered before every
FSM-state handler and carries no state filter, so it matches from any
session state: it clears the state and the payload (`state.clear()`) and
answers with the stop confirmation carrying the main (idle) keyboard.  It
touches no table other than the omitted `last_active` timestamp refresh
that every handler performs. -/
def cmd_stop (sess : Session) (db : DB) : Session × DB × List Reply :=
  (clearedSession, db, [.stopConfirm])

/-- `cmd_broadcast` (`/broadcast`): non-admins get the "admins only"
message; an admin enters the awaiting-broadcast-body state. -/
def cmd_broadcast (cfg : Config) (uid : Nat) (sess : Session) (db : DB) :
    Session × DB × List Reply :=
  if uid ∈ cfg.admins then
    ({ mode := .awaitingBroadcast, payload := none }, db, [.broadcastPrompt])
  else (sess, db, [.adminOnlyNotice])

/-- `admin_broadcast_command` (the admin-panel button): non-admins get the
alert callback answer; an admin enters the awaiting-broadcast-body
state. -/
def admin_broadcast_command (cfg : Config) (uid : Nat) (sess : Session) (db : DB) :
    Session × DB × List Reply :=
  if uid ∈ cfg.admins then
    ({ mode := .awaitingBroadcast, payload := none }, db, [.broadcastPrompt])
  else (sess, db, [.adminOnlyAlert])

/-- The fan-out loop shared by `process_broadcast` and
`send_daily_motivation`: iterate the recipients in order; each send is
attempted inside try/except, a failure is only counted and logged, and
the loop continues with the remaining recipients.  `sendOk` is the
delivery test double; the result is `(sent, failed, attempted-in-order)`.
Exceptions are consumed by the local `except` clause, so none reaches the
dispatcher's error handler. -/
def broadcast_fanout (sendOk : Nat → Bool) : List Nat → Nat × Nat × List Nat
  | [] => (0, 0, [])
  | u :: rest =>
      let r := broadcast_fanout sendOk rest
      if sendOk u then (r.1 + 1, r.2.1, u :: r.2.2)
      else (r.1, r.2.1 + 1, u :: r.2.2)

/-- `SELECT user_id FROM users WHERE is_active = 1` (broadcast recipient
set). -/
def activeRecipients (db : DB) : List Nat :=
  (db.users.filter (fun r => r.isActive)).map (fun r => r.userId)

/-- The daily-scheduler recipient query: both membership flags set, daily
opt-in on and `is_active = 1`. -/
def dailyRecipients (db : DB) : List Nat :=
  (db.users.filter (fun r =>
    r.isSubscribedChannel && r.isSubscribedGroup &&
      r.receiveDailyMotivation && r.isActive)).map (fun r => r.userId)

/-- `process_broadcast` (the awaiting-broadcast-body handler).  A
non-admin sender is dropped silently: the session is cleared and the
handler returns with no outbound message at all.  The stop / back texts
cancel with a confirmation.  Otherwise the handler announces the fan-out
(the progress message goes out before the loop) and runs the shared
delivery loop over the active users; delivery failures are only counted,
and the database is never written — in particular no `is_active` flag is
touched.  The loop however rebinds the handler's `user_id` variable to
the last fetched row *tuple*, so when at least one recipient was fetched
the post-loop `get_main_keyboard(user_id)` binds that tuple as an SQL
parameter and the sqlite3 driver raises: the aggregate report is never
sent and `state.clear()` never runs — the exception escapes the handler
(it is no Transport error, so the `dp.errors` handler only logs it and
mutates nothing).  With zero recipients `user_id` is untouched, the
`0 / 0` report is sent and the session is cleared.  The last component of
the result records whether an exception escaped the handler; on the
raising path the session and replies are those at the raise point. -/
def process_broadcast (cfg : Config) (sendOk : Nat → Bool) (uid : Nat)
    (sess : Session) (db : DB) (text : String) :
    Session × DB × List Reply × Bool :=
  if uid ∈ cfg.admins then
    if text = "/stop" ∨ text = backText then
      (clearedSession, db, [.broadcastCancelled], false)
    else
      let recips := activeRecipients db
      let r := broadcast_fanout sendOk recips
      if recips.isEmpty then
        (clearedSession, db,
         [.broadcastStarting recips.length, .broadcastReport r.1 r.2.1], false)
      else
        (sess, db, [.broadcastStarting recips.length], true)
  else (clearedSession, db, [], false)

/-- `send_daily_motivation`: `pick` is the outcome of the random
`approved`-motivation SELECT (`none` when no approved motivation exists —
the run logs and exits).  Otherwise the daily recipient set is fanned out
through the same loop; the database is never written. -/
def send_daily_motivation (sendOk : Nat → Bool) (pick : Option (Nat × String))
    (db : DB) : Nat × Nat :=
  match pick with
  | none => (0, 0)
  | some _ =>
      let r := broadcast_fanout sendOk (dailyRecipients db)
      (r.1, r.2.1)

/-- `process_motivation` (the awaiting-submission handler).  Stop / back
cancels.  Otherwise the INSERT is attempted (`writeOk` is the outcome of
the datastore write): on failure the submitter gets the generic retry
message and the handler returns — no notification is attempted.  On
success the row is inserted with status `pending` at the next
AUTOINCREMENT id, the submitter is thanked, and the reviewer notification
fans out: to the moderation group when configured (on failure falling
back to each admin individually, each attempt logged but never
escalated), else to each admin directly.  The stored row is never removed
again on this path, whatever the notification outcomes. -/
def process_motivation (cfg : Config) (writeOk groupSendOk : Bool)
    (adminSendOk : Nat → Bool) (uid : Nat) (text : String) (db : DB) :
    DB × List Reply :=
  if text = "/stop" ∨ text = backText then (db, [.submissionCancelled])
  else if writeOk then
    let mid := db.nextId
    let db2 : DB :=
      { db with
          items := fun j =>
            if j = mid then some ⟨text, uid, "pending", 0, 0⟩ else db.items j,
          nextId := db.nextId + 1 }
    let notifs : List Reply :=
      match cfg.motivationGroup with
      | some g =>
          if groupSendOk then [Reply.notifGroup g mid true]
          else Reply.notifGroup g mid false ::
            cfg.admins.map (fun a => Reply.notifAdmin a mid (adminSendOk a))
      | none => cfg.admins.map (fun a => Reply.notifAdmin a mid (adminSendOk a))
    (db2, Reply.submissionThanks :: notifs)
  else (db, [.retryError])

/-- `handle_errors` (the `dp.errors` handler): it only ever receives an
exception that escaped an update handler — the fan-out loops above catch
their delivery exceptions locally, so no broadcast delivery failure
reaches it — and, for a "blocked by user" Transport error, it sets
`is_active = 0` on the row of the *update's sender*. -/
def handle_errors (senderId : Nat) (blockedErr : Bool) (db : DB) : DB :=
  if blockedErr then
    { db with users := db.users.map (fun r =>
        if r.userId = senderId then { r with isActive := false } else r) }
  else db

/-! Concrete instances used by witnesses and counterexamples. -/

/-- Empty database (fresh `setup_database` run). -/
def db0 : DB := { items := fun _ => none, nextId := 1, marks := ∅, users := [] }

/-- A sample motivation row. -/
def itemX : Motivation :=
  { text := "x", submittedBy := 2, status := "approved", likes := 1, shares := 0 }

/-- Database holding motivation 5 (liked once by user 2). -/
def dbDel : DB :=
  { items := fun j => if j = 5 then some itemX else none,
    nextId := 6, marks := {(2, 5)}, users := [] }

/-- Database holding one fully subscribed, active user (id 7). -/
def dbC6 : DB :=
  { items := fun _ => none, nextId := 1, marks := ∅,
    users := [{ userId := 7, isSubscribedChannel := true, isSubscribedGroup := true,
                receiveDailyMotivation := true, isActive := true }] }

/-- Configuration with admin 1 and no moderation group. -/
def cfg1 : Config := { admins := [1], motivationGroup := none }

/-- Configuration with admin 1 and moderation group 99. -/
def cfg2 : Config := { admins := [1], motivationGroup := some 99 }

/-- A session sitting in the awaiting-broadcast-body state. -/
def sessB : Session := { mode := .awaitingBroadcast, payload := none }

/-! Helper lemmas. -/

theorem like_motivation_mem (uid mid : Nat) (db : DB) (h : (uid, mid) ∈ db.marks) :
    like_motivation uid mid db =
      { db with
          marks := db.marks.erase (uid, mid),
          items := updItem mid (fun m => { m with likes := m.likes - 1 }) db.items } := by
  simp [like_motivation, h]

theorem like_motivation_not_mem (uid mid : Nat) (db : DB) (h : (uid, mid) ∉ db.marks) :
    like_motivation uid mid db =
      { db with
          marks := insert (uid, mid) db.marks,
          items := updItem mid (fun m => { m with likes := m.likes + 1 }) db.items } := by
  simp [like_motivation, h]

/-- A single toggle preserves the like-counter invariant. -/
theorem likeInv_toggle (uid mid : Nat) (db : DB) (h : likeInv db) :
    likeInv (like_motivation uid mid db) := by
  intro j m hj
  by_cases hm : (uid, mid) ∈ db.marks
  · rw [like_motivation_mem uid mid db hm] at hj ⊢
    by_cases hjm : j = mid
    · subst hjm
      simp only [updItem, if_pos rfl] at hj
      cases hx : db.items j with
      | none => rw [hx] at hj; exact absurd hj (by simp)
      | some m0 =>
          rw [hx, Option.map_some'] at hj
          injection hj with hj
          subst hj
          have hinv := h j m0 hx
          have hmemf : (uid, j) ∈ db.marks.filter (fun p => p.2 = j) :=
            Finset.mem_filter.mpr ⟨hm, rfl⟩
          have hcast := Finset.cast_card_erase_of_mem (R := Int) hmemf
          simp only [likeCount, Finset.filter_erase] at hcast ⊢
          rw [hcast]
          simp only [likeCount] at hinv
          omega
    · simp only [updItem, if_neg hjm] at hj
      have hinv := h j m hj
      simp only [likeCount, Finset.filter_erase]
      rw [Finset.erase_eq_of_not_mem
        (fun hc => hjm ((Finset.mem_filter.mp hc).2).symm)]
      exact hinv
  · rw [like_motivation_not_mem uid mid db hm] at hj ⊢
    by_cases hjm : j = mid
    · subst hjm
      simp only [updItem, if_pos rfl] at hj
      cases hx : db.items j with
      | none => rw [hx] at hj; exact absurd hj (by simp)
      | some m0 =>
          rw [hx, Option.map_some'] at hj
          injection hj with hj
          subst hj
          have hinv := h j m0 hx
          have hnf : (uid, j) ∉ db.marks.filter (fun p => p.2 = j) := by
            intro hc
            exact hm (Finset.mem_filter.mp hc).1
          simp only [likeCount, Finset.filter_insert]
          rw [if_pos trivial, Finset.card_insert_of_not_mem hnf]
          simp only [likeCount] at hinv
          push_cast
          omega
    · simp only [updItem, if_neg hjm] at hj
      have hinv := h j m hj
      simp only [likeCount, Finset.filter_insert]
      rw [if_neg (fun hc : (uid, mid).2 = j => hjm hc.symm)]
      exact hinv

/-! Claim theorems. -/

/-- C1: for every item, after any sequence of toggle-like calls (by any
users, including repeated calls from the same user, processed one at a
time) from a state satisfying the like-counter invariant, every item's
like counter still equals the number of like-mark rows referencing it. -/
theorem like_counter_matches_marks (db : DB) (calls : List (Nat × Nat))
    (h : likeInv db) : likeInv (toggleSeq calls db) := by
  induction calls generalizing db with
  | nil => exact h
  | cons c rest ih =>
      obtain ⟨u, m⟩ := c
      exact ih (like_motivation u m db) (likeInv_toggle u m db h)

/-- Witness for C1: the invariant holds after a concrete toggle sequence
(two users like item 1, the first user then unlikes it) on the empty
database. -/
theorem like_counter_matches_marks_witness :
    likeInv (toggleSeq [(1, 1), (2, 1), (1, 1)] db0) :=
  like_counter_matches_marks db0 [(1, 1), (2, 1), (1, 1)]
    (fun _ m hm => absurd hm (by simp [db0]))

/-- C4: the toggle-like action is its own inverse — two consecutive calls
by the same (user, item) pair restore the whole datastore, in particular
the mark's existence and the item's like counter, to their values before
the first call. -/
theorem toggleLike_involution (u mid : Nat) (db : DB) :
    like_motivation u mid (like_motivation u mid db) = db := by
  by_cases hm : (u, mid) ∈ db.marks
  · rw [like_motivation_mem u mid db hm,
      like_motivation_not_mem u mid _ (by simp [Finset.not_mem_erase])]
    refine DB.ext ?_ rfl ?_ rfl
    · funext j
      show updItem mid _ (updItem mid _ db.items) j = db.items j
      simp only [updItem]
      by_cases hj : j = mid
      · subst hj
        cases hx : db.items j with
        | none => simp [hx]
        | some m0 => cases m0; simp [hx]
      · simp [hj]
    · show insert (u, mid) (db.marks.erase (u, mid)) = db.marks
      exact Finset.insert_erase hm
  · rw [like_motivation_not_mem u mid db hm,
      like_motivation_mem u mid _ (by simp [Finset.mem_insert_self])]
    refine DB.ext ?_ rfl ?_ rfl
    · funext j
      show updItem mid _ (updItem mid _ db.items) j = db.items j
      simp only [updItem]
      by_cases hj : j = mid
      · subst hj
        cases hx : db.items j with
        | none => simp [hx]
        | some m0 => cases m0; simp [hx]
      · simp [hj]
    · show (insert (u, mid) db.marks).erase (u, mid) = db.marks
      exact Finset.erase_insert hm

/-- C10: toggling a like for an item id with no motivation row still
succeeds: the items table is left completely unchanged (so no like
counter moves — the UPDATE matches no row), while the mark is inserted
when absent and deleted when present, so a like-mark row can reference a
nonexistent item. -/
theorem toggleLike_orphan_mark (u mid : Nat) (db : DB)
    (h : db.items mid = none) :
    (like_motivation u mid db).items = db.items
  ∧ ((u, mid) ∉ db.marks →
      (like_motivation u mid db).marks = insert (u, mid) db.marks)
  ∧ ((u, mid) ∈ db.marks →
      (like_motivation u mid db).marks = db.marks.erase (u, mid)) := by
  refine ⟨?_, ?_, ?_⟩
  · funext j
    by_cases hm : (u, mid) ∈ db.marks <;>
      [rw [like_motivation_mem u mid db hm]; rw [like_motivation_not_mem u mid db hm]] <;>
      · show updItem mid _ db.items j = db.items j
        simp only [updItem]
        by_cases hj : j = mid
        · subst hj; simp [h]
        · simp [hj]
  · intro hm
    rw [like_motivation_not_mem u mid db hm]
  · intro hm
    rw [like_motivation_mem u mid db hm]

/-- Witness for C10: on the empty database user 5 toggles a like for the
nonexistent item 1 — the items table is untouched and the orphan mark is
inserted. -/
theorem toggleLike_orphan_mark_witness :
    (like_motivation 5 1 db0).items = db0.items
  ∧ (like_motivation 5 1 db0).marks = insert (5, 1) db0.marks :=
  ⟨(toggleLike_orphan_mark 5 1 db0 rfl).1,
   (toggleLike_orphan_mark 5 1 db0 rfl).2.1 (by decide)⟩

/-- C2 counterexample: admin 1 deletes motivation 5, which user 2 has
liked.  The motivation row is gone, but the like-mark (2, 5) referencing
the deleted item is still present — refuting the claim that no like-mark
referencing the deleted item remains. -/
theorem delete_keeps_like_marks_cex :
    (delete_motivation cfg1 1 5 dbDel).1.items 5 = none
  ∧ (2, 5) ∈ (delete_motivation cfg1 1 5 dbDel).1.marks := by
  constructor
  · rfl
  · decide

/-- C2 amended: for every existing item, delete performed by a privileged
reviewer physically removes the motivation row, but it removes no
like-mark row: the `motivation_likes` table is left exactly as it was, so
marks referencing the deleted item remain. -/
theorem delete_removes_item_only (cfg : Config) (reviewer mid : Nat) (db : DB)
    (h : reviewer ∈ cfg.admins) :
    (delete_motivation cfg reviewer mid db).1.items mid = none
  ∧ (delete_motivation cfg reviewer mid db).1.marks = db.marks := by
  simp [delete_motivation, h]

/-- Witness for the amended C2 at a concrete input. -/
theorem delete_removes_item_only_witness :
    (delete_motivation cfg1 1 5 dbDel).1.items 5 = none
  ∧ (delete_motivation cfg1 1 5 dbDel).1.marks = dbDel.marks :=
  delete_removes_item_only cfg1 1 5 dbDel (by decide)

/-- C3: the access gate.  For every user: a membership lookup returning
two active (not left / kicked / banned) statuses yields `true`; for a
non-privileged user, either status being left / kicked / banned yields
`false`; a privileged identity is authorized regardless of the lookup
outcome; and for a non-privileged user any Transport error during the
check yields `false` — the gate's result type is `Bool`, so a boolean is
always returned and no error propagates. -/
theorem access_gate_spec (cfg : Config) (db : DB) (uid : Nat) :
    (∀ cs gs, statusOk cs = true → statusOk gs = true →
        (isAuthorized cfg db uid (.ok (cs, gs))).1 = true)
  ∧ (uid ∉ cfg.admins → ∀ cs gs,
        (cs ∈ ["left", "kicked", "banned"] ∨ gs ∈ ["left", "kicked", "banned"]) →
        (isAuthorized cfg db uid (.ok (cs, gs))).1 = false)
  ∧ (uid ∈ cfg.admins →
        ∀ transport, (isAuthorized cfg db uid transport).1 = true)
  ∧ (uid ∉ cfg.admins →
        ∀ e, (isAuthorized cfg db uid (.error e)).1 = false) := by
  refine ⟨?_, ?_, ?_, ?_⟩
  · intro cs gs hcs hgs
    by_cases ha : uid ∈ cfg.admins <;>
      simp [isAuthorized, check_subscription, ha, hcs, hgs]
  · intro ha cs gs hbad
    have hfalse : statusOk cs = false ∨ statusOk gs = false := by
      rcases hbad with h | h <;> [left; right] <;>
        · simp only [List.mem_cons, List.not_mem_nil, or_false] at h
          rcases h with rfl | rfl | rfl <;> rfl
    simp only [isAuthorized, if_neg ha, check_subscription]
    rcases hfalse with h | h <;> simp [h]
  · intro ha transport
    simp [isAuthorized, ha]
  · intro ha e
    simp [isAuthorized, ha, check_subscription]

/-- Witness for C3 at concrete inputs: a subscribed non-admin passes, a
non-admin who left the channel fails, the admin passes even on a
Transport error, and a non-admin fails on a Transport error. -/
theorem access_gate_spec_witness :
    (isAuthorized cfg2 db0 7 (.ok ("member", "member"))).1 = true
  ∧ (isAuthorized cfg2 db0 7 (.ok ("left", "member"))).1 = false
  ∧ (isAuthorized cfg2 db0 1 (.error "network down")).1 = true
  ∧ (isAuthorized cfg2 db0 7 (.error "network down")).1 = false :=
  ⟨(access_gate_spec cfg2 db0 7).1 "member" "member" (by decide) (by decide),
   (access_gate_spec cfg2 db0 7).2.1 (by decide) "left" "member" (Or.inl (by decide)),
   (access_gate_spec cfg2 db0 1).2.2.1 (by decide) (.error "network down"),
   (access_gate_spec cfg2 db0 7).2.2.2 (by decide) "network down"⟩

/-- The fan-out loop splits the recipients into delivered and failed. -/
theorem broadcast_fanout_eq (sendOk : Nat → Bool) (rs : List Nat) :
    broadcast_fanout sendOk rs =
      ((rs.filter (fun u => sendOk u)).length,
       (rs.filter (fun u => !sendOk u)).length, rs) := by
  induction rs with
  | nil => rfl
  | cons u rest ih =>
      cases h : sendOk u <;> simp [broadcast_fanout, ih, List.filter_cons, h]

/-- Delivered and failed recipients together exhaust the list. -/
theorem filter_length_split (p : Nat → Bool) (l : List Nat) :
    (l.filter p).length + (l.filter (fun a => !p a)).length = l.length := by
  induction l with
  | nil => rfl
  | cons a l ih => cases h : p a <;> simp [List.filter_cons, h, ← ih] <;> omega

/-- C5: for every ordered recipient list of length `N` in which exactly
`K` deliveries fail, the broadcast fan-out attempts every recipient
exactly once, in the given order (the attempt log equals the input list),
reports `sent = N - K` and `failed = K`, and — since the log always
covers the whole list — a failure for one recipient never aborts delivery
to the remaining recipients. -/
theorem broadcast_attempts_and_counts (sendOk : Nat → Bool) (rs : List Nat)
    (N K : Nat) (hN : N = rs.length)
    (hK : K = (rs.filter (fun u => !sendOk u)).length) :
    (broadcast_fanout sendOk rs).2.2 = rs
  ∧ (broadcast_fanout sendOk rs).1 = N - K
  ∧ (broadcast_fanout sendOk rs).2.1 = K := by
  subst hN hK
  rw [broadcast_fanout_eq]
  refine ⟨rfl, ?_, rfl⟩
  have h2 : (rs.filter (fun u => sendOk u)).length +
      (rs.filter (fun u => !sendOk u)).length = rs.length :=
    filter_length_split (fun u => sendOk u) rs
  omega

/-- Witness for C5: recipients [1, 2, 3] with delivery to 2 failing —
all three attempted in order, `sent = 3 - 1`, `failed = 1`. -/
theorem broadcast_attempts_and_counts_witness :
    (broadcast_fanout (fun u => u != 2) [1, 2, 3]).2.2 = [1, 2, 3]
  ∧ (broadcast_fanout (fun u => u != 2) [1, 2, 3]).1 = 3 - 1
  ∧ (broadcast_fanout (fun u => u != 2) [1, 2, 3]).2.1 = 1 :=
  broadcast_attempts_and_counts (fun u => u != 2) [1, 2, 3] 3 1
    (by decide) (by decide)

/-- C6, evaluating the code at the failing input: admin 1 broadcasts to
the single fully subscribed active user 7 and the delivery fails (in the
source, every delivery failure — the recipient-has-blocked-the-bot one
included — lands in the same local `except` clause, which only logs and
counts it, so the `dp.errors` handler that would flip `is_active` never
sees it).  The datastore comes back unchanged — user 7's active flag is
still set — and user 7 is still in the recipient set the next
daily-scheduler run computes; the claim says the active flag is set
false and the user excluded.  Moreover only the progress announcement
went out: with a recipient fetched, the handler raises in the post-loop
keyboard build before the aggregate report is sent or the state
cleared. -/
theorem blocked_recipient_stays_active :
    (process_broadcast cfg1 (fun _ => false) 1 sessB dbC6 "good morning").2.1 = dbC6
  ∧ (process_broadcast cfg1 (fun _ => false) 1 sessB dbC6 "good morning").2.2.1 =
      [.broadcastStarting 1]
  ∧ (process_broadcast cfg1 (fun _ => false) 1 sessB dbC6 "good morning").2.2.2 = true
  ∧ dailyRecipients
      (process_broadcast cfg1 (fun _ => false) 1 sessB dbC6 "good morning").2.1 = [7] := by
  refine ⟨rfl, by decide, by decide, by decide⟩

/-- C7: the submission handler's error paths.  If the datastore write
fails the submitter gets the retry message and nothing else happens: no
item is recorded and no reviewer notification is attempted.  If the write
succeeds, the item is stored as `pending` at the next id and stays stored
whatever the notification outcomes; with a moderation group configured
the primary notification goes there, and its failure triggers a fallback
attempt to each privileged identity individually. -/
theorem submission_error_paths (cfg : Config) (writeOk groupSendOk : Bool)
    (adminSendOk : Nat → Bool) (uid : Nat) (text : String) (db : DB)
    (h1 : text ≠ "/stop") (h2 : text ≠ backText) :
    (writeOk = false →
        process_motivation cfg writeOk groupSendOk adminSendOk uid text db =
          (db, [.retryError]))
  ∧ (writeOk = true →
        (process_motivation cfg writeOk groupSendOk adminSendOk uid text db).1.items
          db.nextId = some ⟨text, uid, "pending", 0, 0⟩)
  ∧ (writeOk = true → ∀ g, cfg.motivationGroup = some g → groupSendOk = true →
        (process_motivation cfg writeOk groupSendOk adminSendOk uid text db).2 =
          [.submissionThanks, .notifGroup g db.nextId true])
  ∧ (writeOk = true → ∀ g, cfg.motivationGroup = some g → groupSendOk = false →
        (process_motivation cfg writeOk groupSendOk adminSendOk uid text db).2 =
          Reply.submissionThanks :: Reply.notifGroup g db.nextId false ::
            cfg.admins.map (fun a => Reply.notifAdmin a db.nextId (adminSendOk a)))
  ∧ (writeOk = true → cfg.motivationGroup = none →
        (process_motivation cfg writeOk groupSendOk adminSendOk uid text db).2 =
          Reply.submissionThanks ::
            cfg.admins.map (fun a => Reply.notifAdmin a db.nextId (adminSendOk a))) := by
  refine ⟨?_, ?_, ?_, ?_, ?_⟩
  · rintro rfl
    simp [process_motivation, h1, h2]
  · rintro rfl
    simp [process_motivation, h1, h2]
  · rintro rfl g hg rfl
    simp [process_motivation, h1, h2, hg]
  · rintro rfl g hg rfl
    simp [process_motivation, h1, h2, hg]
  · rintro rfl hg
    simp [process_motivation, h1, h2, hg]

/-- Witness for C7: user 7 submits "hi" with the moderation group (99)
configured; the write succeeds, the group notification fails, and the
fallback attempt reaches admin 1. -/
theorem submission_error_paths_witness :
    (process_motivation cfg2 true false (fun _ => true) 7 "hi" db0).2 =
      [.submissionThanks, .notifGroup 99 1 false, .notifAdmin 1 1 true] :=
  (submission_error_paths cfg2 true false (fun _ => true) 7 "hi" db0
    (by decide) (by decide)).2.2.2.1 rfl 99 rfl rfl

/-- C8: `/stop` is handled by `cmd_stop` from every session state (it is
registered before the FSM handlers and carries no state filter): whatever
the current mode and payload, the session comes back idle with the
payload cleared, the datastore is untouched, and exactly one outbound
message is produced — the stop confirmation rendering the main (idle)
keyboard.  Instantiated at the idle session this is the claimed no-op
that still re-renders the idle view. -/
theorem stop_resets_session_to_idle (sess : Session) (db : DB) :
    (cmd_stop sess db).1.mode = Mode.idle
  ∧ (cmd_stop sess db).1.payload = none
  ∧ (cmd_stop sess db).2.1 = db
  ∧ (cmd_stop sess db).2.2 = [.stopConfirm] :=
  ⟨rfl, rfl, rfl, rfl⟩

/-- C9 counterexample: user 7 is not privileged, yet when it delivers a
broadcast body (the awaiting-broadcast-body handler, i.e. completing a
broadcast) the handler clears the session and returns without any
outbound message — a silent drop, refuting the claim that every
privileged-gated action attempted by a non-privileged actor gets exactly
one "privileged only" acknowledgment. -/
theorem broadcast_body_silent_drop_cex :
    7 ∉ cfg1.admins
  ∧ (process_broadcast cfg1 (fun _ => true) 7 sessB dbC6 "hello").2.2.1 = [] := by
  constructor
  · decide
  · rfl

/-- C9 amended: a non-privileged actor attempting a privileged-gated
action gets exactly one "privileged only" outcome message — the notice
for the broadcast command, the alert for the admin-panel broadcast
button, approve, reject, edit and delete — with one exception: a
non-privileged actor delivering a broadcast body (completing a broadcast)
is dropped silently, the session being cleared with no outbound message
at all.  No non-privileged attempt raises. -/
theorem privileged_gate_acknowledgments (cfg : Config) (uid mid : Nat)
    (sess : Session) (db : DB) (sendOk : Nat → Bool) (sOk pOk : Bool)
    (text : String) (h : uid ∉ cfg.admins) :
    (cmd_broadcast cfg uid sess db).2.2 = [.adminOnlyNotice]
  ∧ (admin_broadcast_command cfg uid sess db).2.2 = [.adminOnlyAlert]
  ∧ (approve_motivation cfg sOk pOk uid mid db).2 = [.adminOnlyAlert]
  ∧ (reject_motivation cfg sOk uid mid db).2 = [.adminOnlyAlert]
  ∧ (edit_motivation_command cfg uid mid sess db).2.2 = [.adminOnlyAlert]
  ∧ (delete_motivation cfg uid mid db).2 = [.adminOnlyAlert]
  ∧ (process_broadcast cfg sendOk uid sess db text).2.2.1 = []
  ∧ (process_broadcast cfg sendOk uid sess db text).2.2.2 = false
  ∧ (process_broadcast cfg sendOk uid sess db text).1 = clearedSession := by
  simp [cmd_broadcast, admin_broadcast_command, approve_motivation,
    reject_motivation, edit_motivation_command, delete_motivation,
    process_broadcast, h]

/-- Witness for the amended C9 at the concrete non-admin user 7. -/
theorem privileged_gate_acknowledgments_witness :
    (cmd_broadcast cfg1 7 sessB dbC6).2.2 = [.adminOnlyNotice]
  ∧ (delete_motivation cfg1 7 5 dbC6).2 = [.adminOnlyAlert]
  ∧ (process_broadcast cfg1 (fun _ => true) 7 sessB dbC6 "hey").2.2.1 = [] := by
  have h := privileged_gate_acknowledgments cfg1 7 5 sessB dbC6
    (fun _ => true) true true "hey" (by decide)
  exact ⟨h.1, h.2.2.2.2.2.1, h.2.2.2.2.2.2.1⟩

end TezkorQuiz
